import Mathlib

/-!
Shallow embedding of src/main.py (WATI inbox automation bot).

The program drives a browser against an external web page, so the browser
and the page are modelled as data supplied to the interpreter:

* an unread conversation is an `Item`; its `Behavior` fixes how handling it
  goes: everything succeeds (`ok`), the Ads (CTWA) target is absent
  (`okNoAds`), the chat detail area never renders within its timeout
  (`chatTimeout`), the message-options click raises (`optionsRaise`), or the
  opening click itself raises (`openRaise`);
* clicking a conversation row opens the conversation, which clears its
  unread badge, so a successfully opened item leaves the unread set (the
  page invariant stated in spec section 3: an item disappears from the set
  once acted upon); an opening click that raises performs no click, so the
  badge stays and the item remains in the set;
* a `SessionCfg` fixes the session-level behaviour: whether the persistent
  launch raises, whether navigation raises, whether the Team Inbox marker
  appears for the login check (lines 83-89), whether the unread-selector
  wait succeeds spuriously while the query still returns no elements
  (distinguishing the two empty branches at lines 96-101 and 103-108), and
  whether the marker reappears after the post-item reload (lines 172-175).

The interpreter mirrors the loop nesting of `run_wati_bot` (src/main.py
lines 65-184) and records the observable actions as a trace of events.
Loops run to a fuel bound; exhausting fuel is the observation horizon of
the model, not a behaviour of the program (the Python loops are infinite
and the program has no exit path: every exception is caught by either the
per-item handler at lines 167-170 or the outer handler at lines 181-184).
-/

namespace WatiBot

/-- CHECK_INTERVAL, src/main.py line 62: seconds between idle polls. -/
def CHECK_INTERVAL : Nat := 180

/-- How handling one unread conversation goes, as observed by the code. -/
inductive Behavior where
  | ok
  | okNoAds
  | chatTimeout
  | optionsRaise
  | openRaise
  deriving DecidableEq

/-- One unread conversation badge in the live page, with an abstract
identity used only to tell trace events apart. -/
structure Item where
  id : Nat
  beh : Behavior
  deriving DecidableEq

/-- Observable actions of `run_wati_bot`, in program order. Sleep events
carry their duration in seconds. -/
inductive Ev where
  | launch
  | goto
  | loginCheck
  | loginLoaded
  | loginTimeoutMsg
  | graceSleep (secs : Nat)
  | checking
  | idleSleep (secs : Nat)
  | reload
  | foundUnread (n : Nat)
  | openingChat (id : Nat)
  | clickedChat (id : Nat)
  | chatAreaSkip (id : Nat)
  | optionsClicked (id : Nat)
  | adsClicked (id : Nat)
  | adsMissing (id : Nat)
  | itemError (id : Nat)
  | allClear
  | reloadForNext
  | waitMarkerOk
  | batchDone (n : Nat)
  | pacingSleep (secs : Nat)
  | fatalError
  | backoffSleep (secs : Nat)
  deriving DecidableEq

/-- Result of the per-item processing loop (src/main.py lines 113-175). -/
inductive LoopRes where
  | cleared
  | sessionErr
  | fuelOut
  deriving DecidableEq

/-- Per-item processing loop, src/main.py lines 113-175.

Each iteration re-queries the live unread set (line 114), breaks when it is
empty (lines 115-117), and acts on the first element of the fresh query
(line 119). The try block at lines 123-170 covers the opening click, the
chat-area wait, the options click and the Ads (CTWA) click; a
PlaywrightTimeout of the chat-area wait is caught by the inner handler at
lines 146-148 and a generic exception by the handler at lines 167-170, both
of which continue the loop. The reload and Team Inbox wait at lines 172-175
run only after a fully successful item and are outside the try block, so a
failure there (postMarkerOk = false) escapes as a session-level error.

Returns the emitted events, how the loop ended, and the number of
iterations that attempted an item (the `processed` counter of line 120). -/
def procLoop (postMarkerOk : Bool) : Nat → List Item → List Ev × LoopRes × Nat
  | 0, _ => ([], .fuelOut, 0)
  | _ + 1, [] => ([.allClear], .cleared, 0)
  | fuel + 1, i :: rest =>
    match i.beh with
    | .openRaise =>
      -- lines 124-139 raise before any click happens: badge intact, the
      -- handler at lines 167-170 logs and continues on the unchanged set
      let r := procLoop postMarkerOk fuel (i :: rest)
      (.openingChat i.id :: .itemError i.id :: r.1, r.2.1, r.2.2 + 1)
    | .chatTimeout =>
      -- lines 144-148: chat area missing, log and continue
      let r := procLoop postMarkerOk fuel rest
      (.openingChat i.id :: .clickedChat i.id :: .chatAreaSkip i.id :: r.1, r.2.1, r.2.2 + 1)
    | .optionsRaise =>
      -- lines 151-154 raise after the open click cleared the badge
      let r := procLoop postMarkerOk fuel rest
      (.openingChat i.id :: .clickedChat i.id :: .itemError i.id :: r.1, r.2.1, r.2.2 + 1)
    | .okNoAds =>
      if postMarkerOk then
        let r := procLoop postMarkerOk fuel rest
        (.openingChat i.id :: .clickedChat i.id :: .optionsClicked i.id :: .adsMissing i.id ::
          .reloadForNext :: .waitMarkerOk :: r.1, r.2.1, r.2.2 + 1)
      else
        ([.openingChat i.id, .clickedChat i.id, .optionsClicked i.id, .adsMissing i.id,
          .reloadForNext], .sessionErr, 1)
    | .ok =>
      if postMarkerOk then
        let r := procLoop postMarkerOk fuel rest
        (.openingChat i.id :: .clickedChat i.id :: .optionsClicked i.id :: .adsClicked i.id ::
          .reloadForNext :: .waitMarkerOk :: r.1, r.2.1, r.2.2 + 1)
      else
        ([.openingChat i.id, .clickedChat i.id, .optionsClicked i.id, .adsClicked i.id,
          .reloadForNext], .sessionErr, 1)

/-- Result of the main automation loop (src/main.py lines 92-179). -/
inductive MainRes where
  | err
  | fuelOut
  deriving DecidableEq

/-- Main automation loop, src/main.py lines 92-179.

With no unread items, the wait at line 96 either times out (lines 97-101)
or, when `spuriousWait` holds, succeeds while the query at line 103 still
returns no elements (lines 104-108); both branches sleep CHECK_INTERVAL and
reload. With items present, the batch runs via `procLoop`; after a cleared
batch, lines 177-179 log completion, sleep CHECK_INTERVAL and reload. -/
def mainLoop (procFuel : Nat) (spuriousWait postMarkerOk : Bool) :
    Nat → List Item → List Ev × MainRes
  | 0, _ => ([], .fuelOut)
  | fuel + 1, [] =>
    if spuriousWait then
      -- wait_for_selector succeeded but query_selector_all is empty (104-108)
      let r := mainLoop procFuel spuriousWait postMarkerOk fuel []
      (.checking :: .idleSleep CHECK_INTERVAL :: .reload :: r.1, r.2)
    else
      -- PlaywrightTimeout at line 96 (97-101)
      let r := mainLoop procFuel spuriousWait postMarkerOk fuel []
      (.checking :: .idleSleep CHECK_INTERVAL :: .reload :: r.1, r.2)
  | fuel + 1, i :: rest =>
    let p := procLoop postMarkerOk procFuel (i :: rest)
    match p.2.1 with
    | .sessionErr => (.checking :: .foundUnread (rest.length + 1) :: p.1, .err)
    | .fuelOut => (.checking :: .foundUnread (rest.length + 1) :: p.1, .fuelOut)
    | .cleared =>
      let r := mainLoop procFuel spuriousWait postMarkerOk fuel []
      (.checking :: .foundUnread (rest.length + 1) :: p.1 ++
        .batchDone p.2.2 :: .pacingSleep CHECK_INTERVAL :: .reload :: r.1, r.2)

/-- External behaviour of one browser session attempt. -/
structure SessionCfg where
  launchRaises : Bool
  gotoRaises : Bool
  loginOk : Bool
  spuriousWait : Bool
  postMarkerOk : Bool
  items : List Item
  deriving DecidableEq

/-- How one iteration of the outer loop body ends. -/
inductive SessRes where
  | err
  | loginRetry
  | fuelOut
  deriving DecidableEq

/-- One iteration of the outer while-loop body, src/main.py lines 69-179
(the whole try block): persistent-context launch (72-75), navigation (79),
the login guard (83-89) and the main loop. A login timeout logs, sleeps the
30-second grace window and falls to `continue` at line 89, which tears the
session down without raising. -/
def sessionRun (procFuel mainFuel : Nat) (c : SessionCfg) : List Ev × SessRes :=
  if c.launchRaises then ([], .err)
  else if c.gotoRaises then ([.launch], .err)
  else if !c.loginOk then
    ([.launch, .goto, .loginCheck, .loginTimeoutMsg, .graceSleep 30], .loginRetry)
  else
    let r := mainLoop procFuel c.spuriousWait c.postMarkerOk mainFuel c.items
    (.launch :: .goto :: .loginCheck :: .loginLoaded :: r.1,
     match r.2 with
     | .err => .err
     | .fuelOut => .fuelOut)

/-- run_wati_bot, src/main.py lines 65-184: the outer `while True` with its
catch-all handler. Session k of the run behaves as the k-th `SessionCfg`;
the list length is the horizon. An exception escaping the session body is
logged (line 182) and followed by the 10-second backoff (line 184); the
loop then relaunches from the persisted profile directory with no
in-memory state surviving. -/
def run_wati_bot (procFuel mainFuel : Nat) : List SessionCfg → List Ev
  | [] => []
  | c :: rest =>
    let r := sessionRun procFuel mainFuel c
    match r.2 with
    | .err => r.1 ++ .fatalError :: .backoffSleep 10 :: run_wati_bot procFuel mainFuel rest
    | .loginRetry => r.1 ++ run_wati_bot procFuel mainFuel rest
    | .fuelOut => r.1

/-- Filesystem state seen by `unzip_wati_profile`: whether RENDER is in the
environment, whether wati_profile.zip exists, the (abstract) contents of
the archive, and the (abstract) contents of the profile directory, `none`
when the directory is absent. -/
structure ProfileFS where
  renderInEnv : Bool
  zipExists : Bool
  zipContents : Nat
  profileDir : Option Nat
  deriving DecidableEq

/-- unzip_wati_profile, src/main.py lines 27-36: on Render, when the zip
exists and the profile directory does not, extract the archive; otherwise
leave the filesystem untouched. The Bool reports whether extraction ran. -/
def unzip_wati_profile (fs : ProfileFS) : ProfileFS × Bool :=
  if fs.renderInEnv && fs.zipExists then
    if fs.profileDir.isNone then
      (⟨fs.renderInEnv, fs.zipExists, fs.zipContents, some fs.zipContents⟩, true)
    else (fs, false)
  else (fs, false)

/-- USER_DATA_DIR, src/main.py lines 20-23: profile directory depends on
whether RENDER is present in the environment. -/
def USER_DATA_DIR (renderInEnv : Bool) (cwd : String) : String :=
  if renderInEnv then "/opt/render/project/src/wati_profile"
  else cwd ++ "/wati_profile"

/-- PLAYWRIGHT_BROWSERS_PATH, src/main.py lines 13-16: pinned to the
persistent cache only when the RENDER variable equals the string true,
otherwise unset. -/
def playwrightBrowsersPath (renderVal : Option String) : Option String :=
  if renderVal = some "true" then some "/opt/render/project/src/.playwright-browsers"
  else none

/-- headless argument of launch_persistent_context, src/main.py line 74:
the literal False in every environment; the RENDER flag is not consulted. -/
def launchHeadless (_renderInEnv : Bool) : Bool := false

/-- Events that open a chat (line 121's per-attempt log). -/
def isOpening : Ev → Bool
  | .openingChat _ => true
  | _ => false

/-- Events opening the chat with a given badge id. -/
def isOpeningOf (n : Nat) : Ev → Bool
  | .openingChat m => m == n
  | _ => false

/-- Per-item exception logs (line 168). -/
def isItemErr : Ev → Bool
  | .itemError _ => true
  | _ => false

/-- Per-item exception logs for a given badge id. -/
def isItemErrOf (n : Nat) : Ev → Bool
  | .itemError m => m == n
  | _ => false

/-- Successful Ads (CTWA) clicks (line 160). -/
def isAdsClicked : Ev → Bool
  | .adsClicked _ => true
  | _ => false

/-- Logged absences of the Ads (CTWA) target (line 163). -/
def isAdsMissing : Ev → Bool
  | .adsMissing _ => true
  | _ => false

/-- Waits for the Team Inbox marker in the login guard (line 84). -/
def isLoginCheck : Ev → Bool
  | .loginCheck => true
  | _ => false

/-- Events of the outer exception handler (lines 182-184). -/
def isEscalation : Ev → Bool
  | .fatalError => true
  | .backoffSleep _ => true
  | _ => false

/-- Badge ids in the order their chats were opened. -/
def openedIds (t : List Ev) : List Nat :=
  t.filterMap fun e =>
    match e with
    | .openingChat n => some n
    | _ => none

/-- Summary of the events one item contributes to the batch trace, for
stating batch-level lemmas; proved equal to what `procLoop` emits. -/
def itemEvs (i : Item) : List Ev :=
  match i.beh with
  | .ok => [.openingChat i.id, .clickedChat i.id, .optionsClicked i.id, .adsClicked i.id,
      .reloadForNext, .waitMarkerOk]
  | .okNoAds => [.openingChat i.id, .clickedChat i.id, .optionsClicked i.id, .adsMissing i.id,
      .reloadForNext, .waitMarkerOk]
  | .chatTimeout => [.openingChat i.id, .clickedChat i.id, .chatAreaSkip i.id]
  | .optionsRaise => [.openingChat i.id, .clickedChat i.id, .itemError i.id]
  | .openRaise => [.openingChat i.id, .itemError i.id]

/-- Concatenated per-item traces of a batch. -/
def batchEvs : List Item → List Ev
  | [] => []
  | i :: rest => itemEvs i ++ batchEvs rest

lemma openedIds_append (s t : List Ev) :
    openedIds (s ++ t) = openedIds s ++ openedIds t := by
  simp [openedIds]

lemma openedIds_itemEvs (i : Item) : openedIds (itemEvs i) = [i.id] := by
  cases h : i.beh <;> simp [itemEvs, h, openedIds]

lemma openedIds_batchEvs (l : List Item) :
    openedIds (batchEvs l) = l.map Item.id := by
  induction l with
  | nil => simp [batchEvs, openedIds]
  | cons i rest ih => simp [batchEvs, openedIds_append, openedIds_itemEvs, ih]

lemma countP_itemEvs_isOpening (i : Item) : (itemEvs i).countP isOpening = 1 := by
  cases h : i.beh <;> simp [itemEvs, h, List.countP_cons, isOpening]

lemma countP_itemEvs_isAdsClicked (i : Item) :
    (itemEvs i).countP isAdsClicked = if i.beh = .ok then 1 else 0 := by
  cases h : i.beh <;> simp [itemEvs, h, List.countP_cons, isAdsClicked]

lemma countP_itemEvs_isAdsMissing (i : Item) :
    (itemEvs i).countP isAdsMissing = if i.beh = .okNoAds then 1 else 0 := by
  cases h : i.beh <;> simp [itemEvs, h, List.countP_cons, isAdsMissing]

lemma countP_itemEvs_isItemErr (i : Item) :
    (itemEvs i).countP isItemErr
      = if i.beh = .optionsRaise ∨ i.beh = .openRaise then 1 else 0 := by
  cases h : i.beh <;> simp [itemEvs, h, List.countP_cons, isItemErr]

lemma countP_batchEvs_isOpening (l : List Item) :
    (batchEvs l).countP isOpening = l.length := by
  induction l with
  | nil => simp [batchEvs]
  | cons i rest ih =>
    simp [batchEvs, List.countP_append, countP_itemEvs_isOpening, ih, Nat.add_comm]

lemma countP_batchEvs_isAdsClicked (l : List Item) :
    (batchEvs l).countP isAdsClicked = l.countP fun i => i.beh == .ok := by
  induction l with
  | nil => simp [batchEvs]
  | cons i rest ih =>
    by_cases h : i.beh = .ok <;>
      simp [batchEvs, List.countP_append, List.countP_cons,
        countP_itemEvs_isAdsClicked, ih, h, Nat.add_comm]

lemma countP_batchEvs_isAdsMissing (l : List Item) :
    (batchEvs l).countP isAdsMissing = l.countP fun i => i.beh == .okNoAds := by
  induction l with
  | nil => simp [batchEvs]
  | cons i rest ih =>
    by_cases h : i.beh = .okNoAds <;>
      simp [batchEvs, List.countP_append, List.countP_cons,
        countP_itemEvs_isAdsMissing, ih, h, Nat.add_comm]

lemma countP_batchEvs_isItemErr (l : List Item) (h : ∀ i ∈ l, i.beh ≠ .openRaise) :
    (batchEvs l).countP isItemErr = l.countP fun i => i.beh == .optionsRaise := by
  induction l with
  | nil => simp [batchEvs]
  | cons i rest ih =>
    have hi := h i (List.mem_cons_self _ _)
    have hrest := ih fun j hj => h j (List.mem_cons_of_mem _ hj)
    by_cases ho : i.beh = .optionsRaise <;>
      simp [batchEvs, List.countP_append, List.countP_cons,
        countP_itemEvs_isItemErr, hrest, ho, hi, Nat.add_comm]

/-- The batch loop on a set without opening-click failures runs each item
once, in order, and ends with the all-clear break of lines 115-117. -/
lemma procLoop_noOpenRaise (l : List Item) :
    ∀ fuel : Nat, (∀ i ∈ l, i.beh ≠ .openRaise) → l.length < fuel →
      procLoop true fuel l = (batchEvs l ++ [.allClear], .cleared, l.length) := by
  induction l with
  | nil =>
    intro fuel _ hf
    match fuel, hf with
    | f + 1, _ => simp [procLoop, batchEvs]
  | cons i rest ih =>
    intro fuel h hf
    match fuel, hf with
    | f + 1, hf =>
      have hrest : rest.length < f := Nat.lt_of_succ_lt_succ hf
      have hr := ih f (fun j hj => h j (List.mem_cons_of_mem _ hj)) hrest
      have hi := h i (List.mem_cons_self _ _)
      cases hb : i.beh with
      | openRaise => exact absurd hb hi
      | ok => simp [procLoop, hb, hr, batchEvs, itemEvs]
      | okNoAds => simp [procLoop, hb, hr, batchEvs, itemEvs]
      | chatTimeout => simp [procLoop, hb, hr, batchEvs, itemEvs]
      | optionsRaise => simp [procLoop, hb, hr, batchEvs, itemEvs]

/-- The batch loop never emits the outer handler's events. -/
lemma procLoop_no_escalation :
    ∀ (fuel : Nat) (postOk : Bool) (l : List Item),
      ((procLoop postOk fuel l).1.countP isEscalation) = 0 := by
  intro fuel
  induction fuel with
  | zero => intro postOk l; simp [procLoop]
  | succ f ih =>
    intro postOk l
    match l with
    | [] => simp [procLoop, List.countP_cons, isEscalation]
    | i :: rest =>
      cases hb : i.beh <;> cases postOk <;>
        simp [procLoop, hb, List.countP_cons, isEscalation, ih]

/-- The main loop never emits the outer handler's events. -/
lemma mainLoop_no_escalation :
    ∀ (mf pf : Nat) (sp po : Bool) (items : List Item),
      ((mainLoop pf sp po mf items).1.countP isEscalation) = 0 := by
  intro mf
  induction mf with
  | zero => intro pf sp po items; simp [mainLoop]
  | succ f ih =>
    intro pf sp po items
    match items with
    | [] => cases sp <;> simp [mainLoop, List.countP_cons, isEscalation, ih]
    | i :: rest =>
      cases hp : (procLoop po pf (i :: rest)).2.1 <;>
        simp [mainLoop, hp, List.countP_cons, List.countP_append, isEscalation, ih,
          procLoop_no_escalation]

/-- A session attempt never emits the outer handler's events itself; those
appear only in the outer loop after the session body has ended. -/
lemma sessionRun_no_escalation (pf mf : Nat) (c : SessionCfg) :
    ((sessionRun pf mf c).1.countP isEscalation) = 0 := by
  unfold sessionRun
  by_cases h1 : c.launchRaises <;> by_cases h2 : c.gotoRaises <;>
    by_cases h3 : c.loginOk <;>
      simp [h1, h2, h3, List.countP_cons, isEscalation, mainLoop_no_escalation]

/-- C1, counterexample. With two unread items whose first one raises during
the opening click itself (so no click happened and its badge stays in the
live set), the loop catches and logs the exception on every iteration of
the horizon but keeps re-attempting that same first item: the second item
is never opened. This refutes the claim that any caught per-item exception
results only in skipping that item with the remaining items still
processed. -/
theorem openClickFailureRepeats :
    ((run_wati_bot 3 1
        [⟨false, false, true, false, true, [⟨1, .openRaise⟩, ⟨2, .ok⟩]⟩]).countP
      (isOpeningOf 2) = 0)
  ∧ ((run_wati_bot 3 1
        [⟨false, false, true, false, true, [⟨1, .openRaise⟩, ⟨2, .ok⟩]⟩]).countP
      (isItemErrOf 1) = 3) := by
  decide

/-- C1, amended: any exception raised during a single item's handling is
caught by the per-item handler (lines 167-170), logged, and never aborts
the batch or the session; when every failure occurs after the opening
click (chat-area timeout, options click, action click) — so the opened
item's badge is cleared — each item is attempted exactly once in order,
the batch runs to completion, and the logged per-item errors are exactly
the raising items. -/
theorem perItemExceptionContained (l : List Item) (fuel : Nat)
    (h : ∀ i ∈ l, i.beh ≠ .openRaise) (hf : l.length < fuel) :
    (procLoop true fuel l).2.1 = .cleared
  ∧ openedIds (procLoop true fuel l).1 = l.map Item.id
  ∧ (procLoop true fuel l).1.countP isItemErr
      = l.countP (fun i => i.beh == .optionsRaise) := by
  have he := procLoop_noOpenRaise l fuel h hf
  rw [he]
  refine ⟨rfl, ?_, ?_⟩
  · rw [openedIds_append, openedIds_batchEvs]
    simp [openedIds]
  · simp [List.countP_append, countP_batchEvs_isItemErr l h, List.countP_cons, isItemErr]

/-- C1, witness for `perItemExceptionContained`: a batch of one item whose
options click raises followed by one clean item. -/
theorem perItemExceptionContainedInst :
    (∀ i ∈ [(⟨1, .optionsRaise⟩ : Item), ⟨2, .ok⟩], i.beh ≠ Behavior.openRaise)
  ∧ ([(⟨1, .optionsRaise⟩ : Item), ⟨2, .ok⟩].length < 3)
  ∧ ((procLoop true 3 [(⟨1, .optionsRaise⟩ : Item), ⟨2, .ok⟩]).2.1 = .cleared
      ∧ openedIds (procLoop true 3 [(⟨1, .optionsRaise⟩ : Item), ⟨2, .ok⟩]).1
          = [(⟨1, .optionsRaise⟩ : Item), ⟨2, .ok⟩].map Item.id
      ∧ (procLoop true 3 [(⟨1, .optionsRaise⟩ : Item), ⟨2, .ok⟩]).1.countP isItemErr
          = [(⟨1, .optionsRaise⟩ : Item), ⟨2, .ok⟩].countP
              (fun i => i.beh == .optionsRaise)) :=
  ⟨by decide, by decide,
    perItemExceptionContained [⟨1, .optionsRaise⟩, ⟨2, .ok⟩] 3 (by decide) (by decide)⟩

/-- C3: on a poll cycle whose unread query comes back empty — whether the
selector wait at line 96 timed out (spuriousWait false) or the wait
succeeded and the query at line 103 genuinely returned zero elements
(spuriousWait true) — the loop performs exactly one pacing sleep of
CHECK_INTERVAL followed by exactly one page reload, in that order, and
then re-enters the scan. -/
theorem emptyScanSleepsThenReloads (pf : Nat) (sp po : Bool) (fuel : Nat) :
    mainLoop pf sp po (fuel + 1) []
      = (.checking :: .idleSleep CHECK_INTERVAL :: .reload ::
          (mainLoop pf sp po fuel []).1,
         (mainLoop pf sp po fuel []).2) := by
  cases sp <;> simp [mainLoop]

/-- C4: each iteration of the processing loop re-queries the live unread
set and acts on the first element of the fresh query (lines 114-119): the
first event of any non-empty batch opens the head item; and after an
opening-click failure — which leaves the live set unchanged — the next
iteration again opens that same fresh head rather than advancing through a
stale snapshot. -/
theorem actsOnFreshQueryHead (po : Bool) (fuel : Nat) (i : Item) (rest : List Item) :
    ((procLoop po (fuel + 1) (i :: rest)).1.head? = some (.openingChat i.id))
  ∧ (i.beh = .openRaise →
      openedIds (procLoop po (fuel + 2) (i :: rest)).1
        = i.id :: i.id :: openedIds (procLoop po fuel (i :: rest)).1) := by
  constructor
  · cases hb : i.beh <;> cases po <;> simp [procLoop, hb]
  · intro h
    simp [procLoop, h, openedIds]

/-- C4, witness for `actsOnFreshQueryHead`: a two-item batch headed by an
opening-click failure. -/
theorem actsOnFreshQueryHeadInst :
    ((procLoop true 2 [(⟨5, .openRaise⟩ : Item), ⟨6, .ok⟩]).1.head?
        = some (.openingChat 5))
  ∧ ((⟨5, .openRaise⟩ : Item).beh = .openRaise →
      openedIds (procLoop true 3 [(⟨5, .openRaise⟩ : Item), ⟨6, .ok⟩]).1
        = 5 :: 5 :: openedIds (procLoop true 1 [(⟨5, .openRaise⟩ : Item), ⟨6, .ok⟩]).1) :=
  actsOnFreshQueryHead true 1 ⟨5, .openRaise⟩ [⟨6, .ok⟩]

/-- C5: when the conversation detail panel fails to render within its
bounded timeout (lines 144-148), the loop logs the skip and moves on: the
remaining batch continues from the rest of the live set — the opened
item's badge was cleared by the click, so the same item is not retried —
and the outcome of the batch is whatever the rest yields, so the skip
itself neither aborts the batch nor escalates. -/
theorem chatTimeoutSkipsItem (po : Bool) (fuel : Nat) (i : Item) (rest : List Item)
    (h : i.beh = .chatTimeout) :
    procLoop po (fuel + 1) (i :: rest)
      = (.openingChat i.id :: .clickedChat i.id :: .chatAreaSkip i.id ::
          (procLoop po fuel rest).1,
         (procLoop po fuel rest).2.1, (procLoop po fuel rest).2.2 + 1) := by
  simp [procLoop, h]

/-- C5, witness for `chatTimeoutSkipsItem`: a chat-area timeout followed by
a clean item. -/
theorem chatTimeoutSkipsItemInst :
    (⟨3, .chatTimeout⟩ : Item).beh = .chatTimeout
  ∧ procLoop true 2 [(⟨3, .chatTimeout⟩ : Item), ⟨4, .ok⟩]
      = (.openingChat 3 :: .clickedChat 3 :: .chatAreaSkip 3 ::
          (procLoop true 1 [(⟨4, .ok⟩ : Item)]).1,
         (procLoop true 1 [(⟨4, .ok⟩ : Item)]).2.1,
         (procLoop true 1 [(⟨4, .ok⟩ : Item)]).2.2 + 1) :=
  ⟨rfl, chatTimeoutSkipsItem true 1 ⟨3, .chatTimeout⟩ [⟨4, .ok⟩] rfl⟩

/-- C7: over a batch where every item either succeeds fully or has the Ads
(CTWA) target absent after the options menu opened (lines 157-163), every
item is opened, the successful clicks and the logged absences partition the
batch, no per-item exception is logged, the batch clears, and the outer
handler's restart events never appear. In particular three items with the
target missing for the second give three opens, two action clicks and one
logged skip. -/
theorem missingAdsTargetContinues (l : List Item) (fuel : Nat)
    (h : ∀ i ∈ l, i.beh = .ok ∨ i.beh = .okNoAds) (hf : l.length < fuel) :
    (procLoop true fuel l).2.1 = .cleared
  ∧ (procLoop true fuel l).1.countP isOpening = l.length
  ∧ (procLoop true fuel l).1.countP isAdsClicked = l.countP (fun i => i.beh == .ok)
  ∧ (procLoop true fuel l).1.countP isAdsMissing = l.countP (fun i => i.beh == .okNoAds)
  ∧ (procLoop true fuel l).1.countP isItemErr = 0
  ∧ (procLoop true fuel l).1.countP isEscalation = 0 := by
  have hno : ∀ i ∈ l, i.beh ≠ .openRaise := by
    intro i hi
    rcases h i hi with hb | hb <;> simp [hb]
  have he := procLoop_noOpenRaise l fuel hno hf
  have hz : l.countP (fun i => i.beh == .optionsRaise) = 0 := by
    rw [List.countP_eq_zero]
    intro i hi
    rcases h i hi with hb | hb <;> simp [hb]
  refine ⟨by rw [he], ?_, ?_, ?_, ?_, procLoop_no_escalation fuel true l⟩
  · rw [he]
    simp [List.countP_append, countP_batchEvs_isOpening, List.countP_cons, isOpening]
  · rw [he]
    simp [List.countP_append, countP_batchEvs_isAdsClicked, List.countP_cons, isAdsClicked]
  · rw [he]
    simp [List.countP_append, countP_batchEvs_isAdsMissing, List.countP_cons, isAdsMissing]
  · rw [he]
    simp [List.countP_append, countP_batchEvs_isItemErr l hno, List.countP_cons, isItemErr, hz]

/-- C7, witness for `missingAdsTargetContinues`: the spec scenario of three
unread items with the action target missing for the second. -/
theorem missingAdsTargetContinuesInst :
    (∀ i ∈ [(⟨1, .ok⟩ : Item), ⟨2, .okNoAds⟩, ⟨3, .ok⟩],
        i.beh = Behavior.ok ∨ i.beh = Behavior.okNoAds)
  ∧ ([(⟨1, .ok⟩ : Item), ⟨2, .okNoAds⟩, ⟨3, .ok⟩].length < 4)
  ∧ ((procLoop true 4 [(⟨1, .ok⟩ : Item), ⟨2, .okNoAds⟩, ⟨3, .ok⟩]).2.1 = .cleared
      ∧ (procLoop true 4 [(⟨1, .ok⟩ : Item), ⟨2, .okNoAds⟩, ⟨3, .ok⟩]).1.countP isOpening
          = [(⟨1, .ok⟩ : Item), ⟨2, .okNoAds⟩, ⟨3, .ok⟩].length
      ∧ (procLoop true 4 [(⟨1, .ok⟩ : Item), ⟨2, .okNoAds⟩, ⟨3, .ok⟩]).1.countP isAdsClicked
          = [(⟨1, .ok⟩ : Item), ⟨2, .okNoAds⟩, ⟨3, .ok⟩].countP (fun i => i.beh == .ok)
      ∧ (procLoop true 4 [(⟨1, .ok⟩ : Item), ⟨2, .okNoAds⟩, ⟨3, .ok⟩]).1.countP isAdsMissing
          = [(⟨1, .ok⟩ : Item), ⟨2, .okNoAds⟩, ⟨3, .ok⟩].countP (fun i => i.beh == .okNoAds)
      ∧ (procLoop true 4 [(⟨1, .ok⟩ : Item), ⟨2, .okNoAds⟩, ⟨3, .ok⟩]).1.countP isItemErr = 0
      ∧ (procLoop true 4 [(⟨1, .ok⟩ : Item), ⟨2, .okNoAds⟩, ⟨3, .ok⟩]).1.countP isEscalation
          = 0) :=
  ⟨by decide, by decide,
    missingAdsTargetContinues [⟨1, .ok⟩, ⟨2, .okNoAds⟩, ⟨3, .ok⟩] 4 (by decide) (by decide)⟩

/-- C2: an exception escaping the per-item handler ends the session body;
the outer loop catches it (line 181), logs it, sleeps the fixed 10-second
backoff (line 184) and performs exactly one relaunch: the trace of the
whole run is the failed session's events, then exactly one fatal log and
one backoff (the session body itself never emits either), then the run of
the remaining sessions — a continuation that does not depend on the failed
session, so no in-memory state crosses the restart. -/
theorem sessionFailureSingleRestart (pf mf : Nat) (c : SessionCfg)
    (rest : List SessionCfg) (h : (sessionRun pf mf c).2 = .err) :
    run_wati_bot pf mf (c :: rest)
      = (sessionRun pf mf c).1 ++
          .fatalError :: .backoffSleep 10 :: run_wati_bot pf mf rest
  ∧ (sessionRun pf mf c).1.countP isEscalation = 0 := by
  refine ⟨?_, sessionRun_no_escalation pf mf c⟩
  simp [run_wati_bot, h]

/-- C2, witness for `sessionFailureSingleRestart`: a session whose
navigation raises. -/
theorem sessionFailureSingleRestartInst :
    (sessionRun 1 1 ⟨false, true, true, false, true, []⟩).2 = .err
  ∧ (run_wati_bot 1 1 [⟨false, true, true, false, true, []⟩]
      = (sessionRun 1 1 ⟨false, true, true, false, true, []⟩).1 ++
          .fatalError :: .backoffSleep 10 :: run_wati_bot 1 1 []
    ∧ (sessionRun 1 1 ⟨false, true, true, false, true, []⟩).1.countP isEscalation = 0) :=
  ⟨by decide,
    sessionFailureSingleRestart 1 1 ⟨false, true, true, false, true, []⟩ [] (by decide)⟩

/-- C6, counterexample. When the Team Inbox marker does not appear within
the login guard's timeout (line 84), the session performs no further
marker check: it logs, sleeps the 30-second grace window, and the
`continue` at line 89 abandons the session directly. The full session
trace contains exactly one marker check, refuting the claim that the
marker is re-checked once more within the grace window before the session
is abandoned. -/
theorem loginTimeoutNoRecheck :
    sessionRun 1 1 ⟨false, false, false, false, true, []⟩
      = ([.launch, .goto, .loginCheck, .loginTimeoutMsg, .graceSleep 30], .loginRetry)
  ∧ (sessionRun 1 1 ⟨false, false, false, false, true, []⟩).1.countP isLoginCheck = 1 := by
  decide

/-- C6, amended: when the authenticated-state marker does not appear within
the login guard's bounded timeout, the system logs the warning, waits the
30-second grace window, and then abandons the whole session and restarts
from browser launch; there is no additional in-session re-check of the
marker (the next check happens inside the new session) and no further
backoff beyond the grace sleep, since the path raises no exception. -/
theorem loginTimeoutRestartsSession (pf mf : Nat) (c : SessionCfg)
    (rest : List SessionCfg) (h1 : c.loginOk = false) (h2 : c.launchRaises = false)
    (h3 : c.gotoRaises = false) :
    run_wati_bot pf mf (c :: rest)
      = [.launch, .goto, .loginCheck, .loginTimeoutMsg, .graceSleep 30]
          ++ run_wati_bot pf mf rest := by
  simp [run_wati_bot, sessionRun, h1, h2, h3]

/-- C6, witness for `loginTimeoutRestartsSession`: one failed-login session
followed by an empty horizon. -/
theorem loginTimeoutRestartsSessionInst :
    (⟨false, false, false, false, true, []⟩ : SessionCfg).loginOk = false
  ∧ (⟨false, false, false, false, true, []⟩ : SessionCfg).launchRaises = false
  ∧ (⟨false, false, false, false, true, []⟩ : SessionCfg).gotoRaises = false
  ∧ run_wati_bot 2 2 [⟨false, false, false, false, true, []⟩]
      = [.launch, .goto, .loginCheck, .loginTimeoutMsg, .graceSleep 30]
          ++ run_wati_bot 2 2 [] :=
  ⟨rfl, rfl, rfl,
    loginTimeoutRestartsSession 2 2 ⟨false, false, false, false, true, []⟩ [] rfl rfl rfl⟩

/-- C8: unpacking the session archive is a no-op whenever the profile
directory already exists — the filesystem is returned unchanged and no
extraction is reported — and an extraction can only have happened when the
directory was absent. -/
theorem unzipSkipsExistingDir (fs : ProfileFS) :
    (fs.profileDir.isSome = true → unzip_wati_profile fs = (fs, false))
  ∧ ((unzip_wati_profile fs).2 = true → fs.profileDir = none) := by
  cases hd : fs.profileDir with
  | none =>
    constructor
    · intro h
      simp at h
    · intro _
      rfl
  | some v =>
    constructor
    · intro _
      unfold unzip_wati_profile
      rw [hd]
      simp
    · intro h
      unfold unzip_wati_profile at h
      rw [hd] at h
      simp at h

/-- C8, witness for `unzipSkipsExistingDir`: a Render filesystem with the
zip present and the profile directory already in place. -/
theorem unzipSkipsExistingDirInst :
    ((⟨true, true, 5, some 7⟩ : ProfileFS).profileDir.isSome = true)
  ∧ unzip_wati_profile ⟨true, true, 5, some 7⟩ = (⟨true, true, 5, some 7⟩, false) :=
  ⟨rfl, (unzipSkipsExistingDir ⟨true, true, 5, some 7⟩).1 rfl⟩

/-- C9, counterexample. The headless argument of the persistent launch at
line 74 is the literal False whatever the remote-hosting flag says, so the
two runs differing only in that flag launch with the same headless
setting, refuting the claim that the flag alters the headless default. -/
theorem headlessUnaffectedByRender :
    launchHeadless true = launchHeadless false ∧ launchHeadless true = false :=
  ⟨rfl, rfl⟩

/-- C9, amended: the remote-hosting flag alters the file paths — the
resolved profile directory differs between the two runs, and the browser
binary cache path is pinned only when RENDER equals the string true — but
it does not alter the headless setting, which is False in both modes. -/
theorem renderFlagAltersPathsNotHeadless (cwd : String)
    (h : cwd ++ "/wati_profile" ≠ "/opt/render/project/src/wati_profile") :
    USER_DATA_DIR true cwd ≠ USER_DATA_DIR false cwd
  ∧ playwrightBrowsersPath (some "true") ≠ playwrightBrowsersPath none
  ∧ launchHeadless true = launchHeadless false := by
  have e1 : USER_DATA_DIR true cwd = "/opt/render/project/src/wati_profile" := rfl
  have e2 : USER_DATA_DIR false cwd = cwd ++ "/wati_profile" := rfl
  refine ⟨?_, by decide, rfl⟩
  rw [e1, e2]
  exact fun hh => h hh.symm

/-- C9, witness for `renderFlagAltersPathsNotHeadless`: a concrete local
working directory. -/
theorem renderFlagAltersPathsNotHeadlessInst :
    ("/home/user/bot" ++ "/wati_profile" ≠ "/opt/render/project/src/wati_profile")
  ∧ (USER_DATA_DIR true "/home/user/bot" ≠ USER_DATA_DIR false "/home/user/bot"
      ∧ playwrightBrowsersPath (some "true") ≠ playwrightBrowsersPath none
      ∧ launchHeadless true = launchHeadless false) :=
  ⟨by decide, renderFlagAltersPathsNotHeadless "/home/user/bot" (by decide)⟩

/-- C10: the reload and the bounded Team Inbox wait after a successfully
handled item (lines 172-175) sit outside the per-item try block, so when
the marker fails to reappear there the exception is not logged as a
per-item error: it escapes to the outer handler, which aborts the rest of
the batch — the remaining items are never opened — logs the fatal error,
sleeps the 10-second backoff, and relaunches the session. -/
theorem postItemReloadEscalates (pf mf : Nat) (i : Item) (rest : List Item)
    (rcs : List SessionCfg) (h : i.beh = .ok) :
    run_wati_bot (pf + 1) (mf + 1)
        (⟨false, false, true, false, false, i :: rest⟩ :: rcs)
      = [.launch, .goto, .loginCheck, .loginLoaded, .checking,
          .foundUnread (rest.length + 1), .openingChat i.id, .clickedChat i.id,
          .optionsClicked i.id, .adsClicked i.id, .reloadForNext,
          .fatalError, .backoffSleep 10]
          ++ run_wati_bot (pf + 1) (mf + 1) rcs := by
  simp [run_wati_bot, sessionRun, mainLoop, procLoop, h]

/-- C10, witness for `postItemReloadEscalates`: one clean item followed by
a second unread item that the abort leaves untouched. -/
theorem postItemReloadEscalatesInst :
    (⟨7, .ok⟩ : Item).beh = Behavior.ok
  ∧ run_wati_bot 1 1 [⟨false, false, true, false, false, [(⟨7, .ok⟩ : Item), ⟨8, .ok⟩]⟩]
      = [.launch, .goto, .loginCheck, .loginLoaded, .checking,
          .foundUnread 2, .openingChat 7, .clickedChat 7,
          .optionsClicked 7, .adsClicked 7, .reloadForNext,
          .fatalError, .backoffSleep 10]
          ++ run_wati_bot 1 1 [] :=
  ⟨rfl, postItemReloadEscalates 0 0 ⟨7, .ok⟩ [⟨8, .ok⟩] [] rfl⟩

end WatiBot
